import Mathlib

/-!
Verification of the grouped-thermostat aggregation core.

The development shallowly embeds the `GroupedThermostat` class of
`_(working)grouped_thermostat.py` (the `DataUpdateCoordinator` variant whose
code starts at the `TEMPERATURE_HYSTERESIS` constant) together with the helper
functions of `utils.py` and the constants of `const.py`.

Modelling choices:
* temperatures are rationals (`ℚ`); Python `None` becomes `Option.none`;
* a child snapshot dictionary becomes a `ChildSnapshot` structure whose fields
  are all optional (`dict.get` on a missing key yields `None`);
* `self._sub_values` is an insertion-ordered dictionary with a fixed key set,
  embedded as an association list in configuration order;
* `Counter(values).most_common(1)` is embedded by collecting the distinct
  values in first-occurrence (insertion) order and scanning them for the
  first value whose total count is maximal, which is exactly the stable
  tie-breaking of `heapq.nlargest` used by `Counter.most_common`;
* the service-call fan-out of `async_set_hvac_mode` / `async_set_preset_mode`
  is embedded as a sequential loop parameterised by a success predicate
  `ok : String → Bool` telling whether the platform call for a given child
  entity succeeds; the loop stops at the first failing child, mirroring an
  exception escaping the `for` loop.
-/

namespace GroupedThermostat

/-- `HVAC_MODES = [HVACMode.OFF, HVACMode.HEAT]` from `const.py`
(`HVACMode` is a string enum, so the members compare equal to the plain
strings "off" and "heat"). -/
def HVAC_MODES : List String := ["off", "heat"]

/-- `PRESET_MODES = [PRESET_BOOST, PRESET_NONE]` from `const.py`. -/
def PRESET_MODES : List String := ["boost", "none"]

/-- `TEMPERATURE_HYSTERESIS = 0.1` from the source module. -/
def TEMPERATURE_HYSTERESIS : ℚ := 1 / 10

/-- A stored child snapshot: the dictionary written by `_update_sub_value`.
An empty dictionary (the initial `{}` for every configured child) is the
snapshot with every field `none`, because `dict.get` returns `None` then. -/
structure ChildSnapshot where
  state : Option String
  current_temperature : Option ℚ
  temperature : Option ℚ
  preset_mode : Option String
  hvac_action : Option String
deriving DecidableEq, Repr

/-- The all-`none` snapshot corresponding to the initial `{}` entries of
`self._sub_values`. -/
def emptySnapshot : ChildSnapshot :=
  ⟨none, none, none, none, none⟩

/-- The mutable aggregate fields of the group entity. -/
structure GroupState where
  hvac_mode : Option String
  hvac_action : Option String
  target_temperature : Option ℚ
  preset_mode : Option String
  current_temperature : Option ℚ
  available : Bool
deriving DecidableEq, Repr

/-- The field values assigned in `__init__`: `self._hvac_mode = HVACMode.HEAT`,
`self._hvac_action = None`, `self._target_temperature = None`,
`self._attr_preset_mode = PRESET_MODES[1]` (the preset "none"),
`self._current_temperature = None`, `self._available = True`. -/
def initGroupState : GroupState :=
  { hvac_mode := some "heat"
    hvac_action := none
    target_temperature := none
    preset_mode := some "none"
    current_temperature := none
    available := true }

/-- The child-state store `self._sub_values`: an insertion-ordered mapping
from child entity id to its stored snapshot, kept in configuration order. -/
abbrev SubValues := List (String × ChildSnapshot)

/-- The initial store `{t: {} for t in thermostats}`. -/
def initSubValues (thermostats : List String) : SubValues :=
  thermostats.map (fun t => (t, emptySnapshot))

/-- `_update_sub_value`: a new observation replaces the whole stored snapshot
for that child; the key set (and hence the iteration order of the dictionary)
is unchanged because every tracked child already has an entry. -/
def update_sub_value (subs : SubValues) (entity_id : String)
    (snap : ChildSnapshot) : SubValues :=
  subs.map (fun p => if p.1 = entity_id then (p.1, snap) else p)

/-- A sequence of child updates applied in order. -/
def applyUpdates (subs : SubValues) (evs : List (String × ChildSnapshot)) :
    SubValues :=
  evs.foldl (fun s ev => update_sub_value s ev.1 ev.2) subs

/-! ### `utils.py` -/

/-- `calculate_average_temperature`: `mean(temperatures) if temperatures else
None`; the arithmetic mean is the sum divided by the length. -/
def calculate_average_temperature (temperatures : List ℚ) : Option ℚ :=
  if temperatures.isEmpty then none
  else some (temperatures.sum / (temperatures.length : ℚ))

/-- `get_max_temperature`: `max(temperatures) if temperatures else None`;
Python's `max` folds the binary maximum over a non-empty list. -/
def get_max_temperature (temperatures : List ℚ) : Option ℚ :=
  match temperatures with
  | [] => none
  | t :: ts => some (ts.foldl max t)

/-- The distinct values of a list in first-occurrence order: the key order of
`Counter(values)`, since a `Counter` is an insertion-ordered dictionary.
The head of the list is the first key; the keys of the tail keep their
relative first-occurrence order once the head value is dropped. -/
def firstKeys {α : Type} [DecidableEq α] : List α → List α
  | [] => []
  | v :: vs => v :: (firstKeys vs).filter (fun x => x ≠ v)

/-- Scan a candidate list keeping the current best, replacing it only on a
strictly larger count: the stable selection of the maximum performed by
`Counter.most_common(1)` (ties keep the earlier-inserted key). -/
def pickMax {α : Type} (cnt : α → Nat) : List α → α → α
  | [], b => b
  | v :: vs, b => pickMax cnt vs (if cnt b < cnt v then v else b)

/-- `get_most_common_value`:
`Counter(values).most_common(1)[0][0] if values else None`. The counter's
keys are the distinct values in first-occurrence order and `most_common(1)`
returns the first key of maximal count. -/
def get_most_common_value {α : Type} [DecidableEq α]
    (values : List α) : Option α :=
  match firstKeys values with
  | [] => none
  | k :: ks => some (pickMax (fun v => values.count v) ks k)

/-! ### `_update_aggregate_state` -/

/-- The `current_temps` comprehension: the stored `current_temperature`
values that are present, in store order. -/
def currentTempsOf (subs : SubValues) : List ℚ :=
  subs.filterMap (fun p => p.2.current_temperature)

/-- The `target_temps` comprehension: the stored target `temperature`
values that are present, in store order. -/
def targetTempsOf (subs : SubValues) : List ℚ :=
  subs.filterMap (fun p => p.2.temperature)

/-- The `hvac_modes` comprehension: the stored `state` values that lie in
`HVAC_MODES` (a missing state is not in the list, so it is dropped too). -/
def hvacVotesOf (subs : SubValues) : List String :=
  subs.filterMap (fun p =>
    p.2.state.bind (fun s => if s ∈ HVAC_MODES then some s else none))

/-- The `preset_modes` comprehension: the stored `preset_mode` values that
lie in `PRESET_MODES`. -/
def presetVotesOf (subs : SubValues) : List String :=
  subs.filterMap (fun p =>
    p.2.preset_mode.bind (fun s => if s ∈ PRESET_MODES then some s else none))

/-- The `hvac_actions` comprehension: the stored `hvac_action` values that
are present. -/
def actionsOf (subs : SubValues) : List String :=
  subs.filterMap (fun p => p.2.hvac_action)

/-- The current-temperature block of `_update_aggregate_state` (lines around
the hysteresis test): the stored value is replaced, and the significance flag
raised, exactly when a new average exists and either no previous value is
stored or the absolute difference reaches `TEMPERATURE_HYSTERESIS`. -/
def tempStep (prev newv : Option ℚ) : Option ℚ × Bool :=
  match newv with
  | none => (prev, false)
  | some t =>
    match prev with
    | none => (some t, true)
    | some p =>
      if TEMPERATURE_HYSTERESIS ≤ |t - p| then (some t, true)
      else (some p, false)

/-- One discrete-field block of `_update_aggregate_state`: the stored value
is replaced, and the significance flag raised, exactly when the newly
computed value differs from the stored one. -/
def discreteStep {α : Type} [DecidableEq α] (prev newv : Option α) :
    Option α × Bool :=
  if newv ≠ prev then (newv, true) else (prev, false)

/-- `_update_aggregate_state`: recompute every composite field from the
stored snapshots; the returned boolean is the final value of the local
`should_update` flag, which starts `False` and is set by any block whose
field test fires.  `self._available` is assigned unconditionally and sets no
flag. -/
def update_aggregate_state (subs : SubValues) (g : GroupState) :
    GroupState × Bool :=
  let cur := tempStep g.current_temperature
    (calculate_average_temperature (currentTempsOf subs))
  let tgt := discreteStep g.target_temperature
    (get_max_temperature (targetTempsOf subs))
  let hm := discreteStep g.hvac_mode (get_most_common_value (hvacVotesOf subs))
  let pm := discreteStep g.preset_mode
    (get_most_common_value (presetVotesOf subs))
  let ha := discreteStep g.hvac_action (get_most_common_value (actionsOf subs))
  let avail := subs.any (fun p => p.2.state ≠ some "unavailable")
  ({ hvac_mode := hm.1
     hvac_action := ha.1
     target_temperature := tgt.1
     preset_mode := pm.1
     current_temperature := cur.1
     available := avail },
   cur.2 || tgt.2 || hm.2 || pm.2 || ha.2)

/-! ### Command fan-out -/

/-- The sequential service-call loop shared by the three command methods:
each child is called in configuration order with `blocking=True`; the call to
the next child starts only after the previous one completed.  `ok c` tells
whether the platform call for child `c` succeeds.  The result is the list of
children actually contacted, in order, and the overall success flag; a
failing call ends the loop (the exception propagates out of the method). -/
def fanout : List String → (String → Bool) → List String × Bool
  | [], _ => ([], true)
  | c :: cs, ok =>
    if ok c then
      let r := fanout cs ok
      (c :: r.1, r.2)
    else ([c], false)

/-- `async_set_hvac_mode`: the body runs only under
`if hvac_mode in self.hvac_modes`; otherwise the method returns normally
having done nothing.  The method never assigns any aggregate field, so the
group state passes through unchanged.  The returned triple is the group
state after the call, the children contacted, and whether the call completed
without a child failure. -/
def async_set_hvac_mode (g : GroupState) (thermostats : List String)
    (hvac_mode : String) (ok : String → Bool) :
    GroupState × List String × Bool :=
  if hvac_mode ∈ HVAC_MODES then
    let r := fanout thermostats ok
    (g, r.1, r.2)
  else (g, [], true)

/-- `async_set_preset_mode`: same shape as `async_set_hvac_mode` with the
allowed set `PRESET_MODES`. -/
def async_set_preset_mode (g : GroupState) (thermostats : List String)
    (preset_mode : String) (ok : String → Bool) :
    GroupState × List String × Bool :=
  if preset_mode ∈ PRESET_MODES then
    let r := fanout thermostats ok
    (g, r.1, r.2)
  else (g, [], true)

/-! ### Concrete scenario data used by several claims -/

/-- A child snapshot of a healthy heating child. -/
def heatSnap : ChildSnapshot :=
  { state := some "heat"
    current_temperature := some 21
    temperature := some 20
    preset_mode := some "none"
    hvac_action := some "heating" }

/-- The snapshot stored for a child that reports only the state
"unavailable" (an unavailable entity exposes no climate attributes, so
`attributes.get` yields `None` for every field). -/
def unavailSnap : ChildSnapshot :=
  { state := some "unavailable"
    current_temperature := none
    temperature := none
    preset_mode := none
    hvac_action := none }

/-- A snapshot whose state "cool" lies outside the allowed hvac-mode set. -/
def coolSnap : ChildSnapshot :=
  { state := some "cool"
    current_temperature := none
    temperature := none
    preset_mode := none
    hvac_action := none }

end GroupedThermostat

/-! ### Helper lemmas about the embedding -/

namespace GroupedThermostat

theorem discreteStep_fst {α : Type} [DecidableEq α] (prev newv : Option α) :
    (discreteStep prev newv).1 = newv := by
  unfold discreteStep
  by_cases h : newv = prev <;> simp [h]

theorem discreteStep_snd {α : Type} [DecidableEq α] (prev newv : Option α) :
    (discreteStep prev newv).2 = true ↔ newv ≠ prev := by
  unfold discreteStep
  by_cases h : newv = prev <;> simp [h]

theorem update_aggregate_state_available (subs : SubValues) (g : GroupState) :
    (update_aggregate_state subs g).1.available
      = subs.any (fun p => p.2.state ≠ some "unavailable") := rfl

theorem update_aggregate_state_hvac_mode (subs : SubValues) (g : GroupState) :
    (update_aggregate_state subs g).1.hvac_mode
      = get_most_common_value (hvacVotesOf subs) := by
  simp [update_aggregate_state, discreteStep_fst]

theorem update_aggregate_state_preset_mode (subs : SubValues) (g : GroupState) :
    (update_aggregate_state subs g).1.preset_mode
      = get_most_common_value (presetVotesOf subs) := by
  simp [update_aggregate_state, discreteStep_fst]

theorem update_aggregate_state_target (subs : SubValues) (g : GroupState) :
    (update_aggregate_state subs g).1.target_temperature
      = get_max_temperature (targetTempsOf subs) := by
  simp [update_aggregate_state, discreteStep_fst]

theorem update_aggregate_state_action (subs : SubValues) (g : GroupState) :
    (update_aggregate_state subs g).1.hvac_action
      = get_most_common_value (actionsOf subs) := by
  simp [update_aggregate_state, discreteStep_fst]

theorem update_aggregate_state_current (subs : SubValues) (g : GroupState) :
    (update_aggregate_state subs g).1.current_temperature
      = (tempStep g.current_temperature
          (calculate_average_temperature (currentTempsOf subs))).1 := rfl

theorem update_aggregate_state_changed (subs : SubValues) (g : GroupState) :
    (update_aggregate_state subs g).2
      = ((tempStep g.current_temperature
            (calculate_average_temperature (currentTempsOf subs))).2
        || (discreteStep g.target_temperature
              (get_max_temperature (targetTempsOf subs))).2
        || (discreteStep g.hvac_mode
              (get_most_common_value (hvacVotesOf subs))).2
        || (discreteStep g.preset_mode
              (get_most_common_value (presetVotesOf subs))).2
        || (discreteStep g.hvac_action
              (get_most_common_value (actionsOf subs))).2) := rfl

/-! ### Claim C9 -/

/-- Claim C9, counterexample: immediately after construction the facade does
not read all-"none"/default-unavailable — `hvac_mode` reads "heat" and
`available` reads `true`, refuting the claim that every derived field reads
"none"/default-unavailable before the first recompute. -/
theorem spec_initial_state_counterexample :
    initGroupState.hvac_mode = some "heat" ∧ initGroupState.available = true := by
  decide

/-- Claim C9, amended: before the first recompute the current temperature,
target temperature and hvac action read "none", but the hvac mode reads
"heat", the preset mode reads the preset "none", and availability reads
`true`. -/
theorem spec_initial_state_values :
    initGroupState.current_temperature = none
    ∧ initGroupState.target_temperature = none
    ∧ initGroupState.hvac_action = none
    ∧ initGroupState.hvac_mode = some "heat"
    ∧ initGroupState.preset_mode = some "none"
    ∧ initGroupState.available = true := by
  decide

/-! ### Claim C3 -/

/-- Claim C3: for every configured child list and every sequence of child
updates applied to the store created at construction, the recomputed
`available` field is true iff at least one child's last stored state is not
"unavailable" (a never-updated child stores no state at all, which is not
the string "unavailable"). -/
theorem spec_available_iff_some_child_available
    (thermostats : List String) (evs : List (String × ChildSnapshot))
    (g : GroupState) :
    (update_aggregate_state (applyUpdates (initSubValues thermostats) evs)
        g).1.available = true
      ↔ ∃ pr ∈ applyUpdates (initSubValues thermostats) evs,
          pr.2.state ≠ some "unavailable" := by
  rw [update_aggregate_state_available, List.any_eq_true]
  simp

/-! ### Claim C5 -/

/-- Claim C5, counterexample: requesting the preset "eco", which is outside
the allowed set `PRESET_MODES = ["boost", "none"]`, contacts zero children
(second component `[]`) but the method completes normally (third component
`true`): no exception or rejection reaches the caller, so the command is
silently ignored, refuting the claim that the rejection is surfaced. -/
theorem spec_invalid_command_counterexample :
    async_set_preset_mode initGroupState ["child_a", "child_b"] "eco"
        (fun _ => true)
      = (initGroupState, [], true) := by
  decide

/-- Claim C5, amended: a requested hvac mode or preset mode outside the
allowed set contacts zero children and the method returns normally with the
group state untouched — the invalid command is silently ignored rather than
surfaced as a rejected command. -/
theorem spec_invalid_command_silent_noop :
    (∀ (g : GroupState) (thermostats : List String) (m : String)
        (ok : String → Bool), m ∉ HVAC_MODES →
        async_set_hvac_mode g thermostats m ok = (g, [], true))
    ∧ (∀ (g : GroupState) (thermostats : List String) (p : String)
        (ok : String → Bool), p ∉ PRESET_MODES →
        async_set_preset_mode g thermostats p ok = (g, [], true)) := by
  constructor
  · intro g thermostats m ok h
    simp [async_set_hvac_mode, h]
  · intro g thermostats p ok h
    simp [async_set_preset_mode, h]

/-- Witness for the amended claim C5 at a concrete invalid mode. -/
theorem spec_invalid_command_silent_noop_witness :
    "cool" ∉ HVAC_MODES
    ∧ async_set_hvac_mode initGroupState ["child_a"] "cool" (fun _ => true)
        = (initGroupState, [], true) :=
  ⟨by decide,
   spec_invalid_command_silent_noop.1 initGroupState ["child_a"] "cool"
     (fun _ => true) (by decide)⟩

end GroupedThermostat

namespace GroupedThermostat

/-! ### Claim C6 -/

theorem fanout_all_ok (ok : String → Bool) :
    ∀ l : List String, (∀ c ∈ l, ok c = true) → fanout l ok = (l, true) := by
  intro l
  induction l with
  | nil => intro _; rfl
  | cons c cs ih =>
    intro h
    have hc : ok c = true := h c (List.mem_cons_self c cs)
    have hcs := ih (fun x hx => h x (List.mem_cons_of_mem c hx))
    simp [fanout, hc, hcs]

theorem fanout_fail (ok : String → Bool) :
    ∀ (pre : List String) (k : String) (post : List String),
      (∀ c ∈ pre, ok c = true) → ok k = false →
      fanout (pre ++ k :: post) ok = (pre ++ [k], false) := by
  intro pre
  induction pre with
  | nil =>
    intro k post _ hk
    simp [fanout, hk]
  | cons c cs ih =>
    intro k post h hk
    have hc : ok c = true := h c (List.mem_cons_self c cs)
    have hcs := ih k post (fun x hx => h x (List.mem_cons_of_mem c hx)) hk
    simp [fanout, hc, hcs]

/-- Claim C6: the fan-out of `async_set_hvac_mode` contacts the children
sequentially in configuration order.  When every child call succeeds, all
children are contacted in order; when the call to child K fails, exactly the
children 1..K-1 have been committed before it, child K's call is the one that
failed, the children after K are never attempted, and in both cases the
group's composite state is returned unchanged. -/
theorem spec_fanout_sequential_partial_failure
    (g : GroupState) (mode : String) (ok : String → Bool)
    (hmode : mode ∈ HVAC_MODES) :
    (∀ l : List String, (∀ c ∈ l, ok c = true) →
      async_set_hvac_mode g l mode ok = (g, l, true))
    ∧ (∀ (pre : List String) (k : String) (post : List String),
        (∀ c ∈ pre, ok c = true) → ok k = false →
        async_set_hvac_mode g (pre ++ k :: post) mode ok
          = (g, pre ++ [k], false)) := by
  constructor
  · intro l h
    simp [async_set_hvac_mode, hmode, fanout_all_ok ok l h]
  · intro pre k post h hk
    simp [async_set_hvac_mode, hmode, fanout_fail ok pre k post h hk]

/-- Witness for claim C6: `set_hvac_mode("heat")` fanned out to three
children where the call to the second child fails: child 1 is committed,
child 3 is never attempted, and the composite state is unchanged. -/
theorem spec_fanout_sequential_partial_failure_witness :
    "heat" ∈ HVAC_MODES
    ∧ (∀ c ∈ (["t1"] : List String), (fun c => decide (c ≠ "t2")) c = true)
    ∧ (fun c => decide (c ≠ "t2")) "t2" = false
    ∧ async_set_hvac_mode initGroupState ["t1", "t2", "t3"] "heat"
        (fun c => decide (c ≠ "t2"))
      = (initGroupState, ["t1", "t2"], false) :=
  ⟨by decide, by decide, by decide,
   (spec_fanout_sequential_partial_failure initGroupState "heat"
       (fun c => decide (c ≠ "t2")) (by decide)).2
     ["t1"] "t2" ["t3"] (by decide) (by decide)⟩

/-! ### Claim C2 -/

/-- Claim C2, counterexample: a reachable recompute that changes nothing but
availability reports `changed = false`.  Starting from the constructed state,
the single child first reports the bare state "unavailable" (first
recompute), then the state "cool", which lies outside `HVAC_MODES` and so
leaves every voted field where it was while flipping `available` from `false`
to `true`; that second recompute returns `changed = false`, refuting the
claim that an availability flip alone yields `changed = true`. -/
theorem spec_changed_availability_counterexample :
    ((update_aggregate_state [("child_a", unavailSnap)] initGroupState).1.available
        = false)
    ∧ ((update_aggregate_state [("child_a", coolSnap)]
          (update_aggregate_state [("child_a", unavailSnap)] initGroupState).1).1
        = { (update_aggregate_state [("child_a", unavailSnap)] initGroupState).1
            with available := true })
    ∧ ((update_aggregate_state [("child_a", coolSnap)]
          (update_aggregate_state [("child_a", unavailSnap)] initGroupState).1).2
        = false) := by
  decide

/-- Claim C2, amended: the `changed` result of a recompute is the logical OR
of the per-field significance flags of the current temperature (hysteresis
step), target temperature, hvac mode, preset mode and hvac action — for each
of the four discrete fields the flag is set exactly when the newly computed
value differs from the stored one, including a transition to or from "none".
Availability is recomputed but contributes no flag: `changed` is the same
whatever the stored availability was, so a recompute that only flips
availability yields `changed = false`. -/
theorem spec_changed_is_or_of_field_flags (subs : SubValues) (g : GroupState) :
    ((update_aggregate_state subs g).2 = true ↔
      ((tempStep g.current_temperature
          (calculate_average_temperature (currentTempsOf subs))).2 = true
        ∨ get_max_temperature (targetTempsOf subs) ≠ g.target_temperature
        ∨ get_most_common_value (hvacVotesOf subs) ≠ g.hvac_mode
        ∨ get_most_common_value (presetVotesOf subs) ≠ g.preset_mode
        ∨ get_most_common_value (actionsOf subs) ≠ g.hvac_action))
    ∧ (∀ b : Bool,
        (update_aggregate_state subs { g with available := b }).2
          = (update_aggregate_state subs g).2) := by
  constructor
  · rw [update_aggregate_state_changed]
    simp [discreteStep_snd, or_assoc]
  · intro b
    rw [update_aggregate_state_changed, update_aggregate_state_changed]

/-! ### Claim C7 -/

/-- Claim C7, counterexample: after a healthy recompute has set every
composite field, a recompute in which the only child has become "unavailable"
(reporting no attributes) retains the current temperature but resets the
hvac mode, preset mode, hvac action and target temperature to "none",
refuting the claim that none of the derived fields is reset. -/
theorem spec_all_unavailable_counterexample :
    ((update_aggregate_state [("child_a", heatSnap)] initGroupState).1
      = { hvac_mode := some "heat", hvac_action := some "heating",
          target_temperature := some 20, preset_mode := some "none",
          current_temperature := some 21, available := true })
    ∧ ((update_aggregate_state [("child_a", unavailSnap)]
          (update_aggregate_state [("child_a", heatSnap)] initGroupState).1).1
      = { hvac_mode := none, hvac_action := none,
          target_temperature := none, preset_mode := none,
          current_temperature := some 21, available := false }) := by
  constructor
  · simp [update_aggregate_state, tempStep, discreteStep, currentTempsOf,
      targetTempsOf, hvacVotesOf, presetVotesOf, actionsOf,
      calculate_average_temperature, get_max_temperature,
      get_most_common_value, firstKeys, pickMax, heatSnap, initGroupState,
      HVAC_MODES, PRESET_MODES, TEMPERATURE_HYSTERESIS]
  · simp [update_aggregate_state, tempStep, discreteStep, currentTempsOf,
      targetTempsOf, hvacVotesOf, presetVotesOf, actionsOf,
      calculate_average_temperature, get_max_temperature,
      get_most_common_value, firstKeys, pickMax, heatSnap, unavailSnap,
      initGroupState, HVAC_MODES, PRESET_MODES, TEMPERATURE_HYSTERESIS]

/-- Claim C7, amended: when every stored child snapshot is a bare
"unavailable" observation (state "unavailable", no attribute values), a
recompute sets `available` to false and retains the last computed current
temperature, but it recomputes the remaining derived fields from the now
empty collections: target temperature, hvac mode, preset mode and hvac
action are all reset to "none" (the hvac-mode and preset votes are empty in
any case because "unavailable" is outside the allowed sets). -/
theorem spec_all_unavailable_reset_behavior (subs : SubValues) (g : GroupState)
    (h : ∀ pr ∈ subs, pr.2 = unavailSnap) :
    (update_aggregate_state subs g).1
      = { hvac_mode := none, hvac_action := none,
          target_temperature := none, preset_mode := none,
          current_temperature := g.current_temperature,
          available := false } := by
  have hcur : currentTempsOf subs = [] := by
    simp only [currentTempsOf, List.filterMap_eq_nil_iff]
    intro pr hpr
    rw [h pr hpr]
    rfl
  have htgt : targetTempsOf subs = [] := by
    simp only [targetTempsOf, List.filterMap_eq_nil_iff]
    intro pr hpr
    rw [h pr hpr]
    rfl
  have hhv : hvacVotesOf subs = [] := by
    simp only [hvacVotesOf, List.filterMap_eq_nil_iff]
    intro pr hpr
    rw [h pr hpr]
    rfl
  have hpm : presetVotesOf subs = [] := by
    simp only [presetVotesOf, List.filterMap_eq_nil_iff]
    intro pr hpr
    rw [h pr hpr]
    rfl
  have hac : actionsOf subs = [] := by
    simp only [actionsOf, List.filterMap_eq_nil_iff]
    intro pr hpr
    rw [h pr hpr]
    rfl
  have hav : subs.any (fun p => p.2.state ≠ some "unavailable") = false := by
    simp only [List.any_eq_false]
    intro pr hpr
    rw [h pr hpr]
    decide
  simp [update_aggregate_state, hcur, htgt, hhv, hpm, hac, hav,
    calculate_average_temperature, get_max_temperature,
    get_most_common_value, firstKeys, tempStep, discreteStep_fst]
  intro a b hab
  have hb : b = unavailSnap := h (a, b) hab
  rw [hb]
  rfl

/-- Witness for the amended claim C7: one child stored as a bare
"unavailable" snapshot while the group previously computed a full state. -/
theorem spec_all_unavailable_reset_behavior_witness :
    (∀ pr ∈ ([("child_a", unavailSnap)] : SubValues), pr.2 = unavailSnap)
    ∧ (update_aggregate_state [("child_a", unavailSnap)]
        { hvac_mode := some "heat", hvac_action := some "heating",
          target_temperature := some 20, preset_mode := some "none",
          current_temperature := some 21, available := true }).1
      = { hvac_mode := none, hvac_action := none,
          target_temperature := none, preset_mode := none,
          current_temperature := some 21, available := false } :=
  ⟨by decide,
   spec_all_unavailable_reset_behavior [("child_a", unavailSnap)]
     { hvac_mode := some "heat", hvac_action := some "heating",
       target_temperature := some 20, preset_mode := some "none",
       current_temperature := some 21, available := true } (by decide)⟩

end GroupedThermostat

namespace GroupedThermostat

/-! ### Claim C1 -/

/-- Claim C1: on a recompute whose child temperatures average to `t`, the
stored composite current temperature is replaced by `t` with the
significance flag raised (the flag `update_aggregate_state` ORs into
`changed`) exactly when no previous value is stored ("first value ever") or
the absolute difference from the previous value reaches the 0.1 hysteresis
threshold; a smaller change leaves the stored value in place and is not
counted as changed. -/
theorem spec_current_temp_hysteresis (subs : SubValues) (g : GroupState)
    (t : ℚ)
    (h : calculate_average_temperature (currentTempsOf subs) = some t) :
    (((update_aggregate_state subs g).1.current_temperature = some t
        ∧ (tempStep g.current_temperature (some t)).2 = true)
      ↔ (g.current_temperature = none
        ∨ ∃ p, g.current_temperature = some p
            ∧ TEMPERATURE_HYSTERESIS ≤ |t - p|))
    ∧ (∀ p, g.current_temperature = some p →
        |t - p| < TEMPERATURE_HYSTERESIS →
        (update_aggregate_state subs g).1.current_temperature = some p
          ∧ (tempStep g.current_temperature (some t)).2 = false) := by
  rw [update_aggregate_state_current, h]
  cases hg : g.current_temperature with
  | none =>
    constructor
    · simp [tempStep]
    · intro p hp
      exact absurd hp (by simp)
  | some p =>
    by_cases hyst : TEMPERATURE_HYSTERESIS ≤ |t - p|
    · constructor
      · simp only [tempStep, if_pos hyst]
        simp only [true_and, iff_true, and_true]
        constructor
        · intro _
          exact Or.inr ⟨p, rfl, hyst⟩
        · intro _
          trivial
      · intro q hq habs
        have hqp : p = q := Option.some.inj hq
        subst hqp
        exact absurd hyst (not_le.mpr habs)
    · constructor
      · simp only [tempStep, if_neg hyst]
        constructor
        · intro hx
          exact absurd hx.2 (by simp)
        · intro hx
          rcases hx with hnone | ⟨q, hq, hge⟩
          · exact absurd hnone (by simp)
          · have hqp : p = q := Option.some.inj hq
            subst hqp
            exact absurd hge hyst
      · intro q hq _
        have hqp : p = q := Option.some.inj hq
        subst hqp
        simp [tempStep, if_neg hyst]

/-- Witness for claim C1 at one child reporting 21 degrees into a freshly
constructed group. -/
theorem spec_current_temp_hysteresis_witness :
    calculate_average_temperature (currentTempsOf [("child_a", heatSnap)])
        = some 21
    ∧ ((((update_aggregate_state [("child_a", heatSnap)]
            initGroupState).1.current_temperature = some 21
          ∧ (tempStep initGroupState.current_temperature (some 21)).2 = true)
        ↔ (initGroupState.current_temperature = none
          ∨ ∃ p, initGroupState.current_temperature = some p
              ∧ TEMPERATURE_HYSTERESIS ≤ |21 - p|))
      ∧ (∀ p, initGroupState.current_temperature = some p →
          |21 - p| < TEMPERATURE_HYSTERESIS →
          (update_aggregate_state [("child_a", heatSnap)]
              initGroupState).1.current_temperature = some p
            ∧ (tempStep initGroupState.current_temperature (some 21)).2
                = false)) := by
  have h : calculate_average_temperature (currentTempsOf [("child_a", heatSnap)])
      = some 21 := by
    simp [calculate_average_temperature, currentTempsOf, heatSnap]
  exact ⟨h, spec_current_temp_hysteresis [("child_a", heatSnap)]
    initGroupState 21 h⟩

/-! ### Claim C10 -/

/-- Claim C10: after any recompute in which at least one stored snapshot has
a present current temperature, the exposed composite current temperature is
present and lies strictly within the 0.1 hysteresis threshold of the
arithmetic mean of those present child temperatures. -/
theorem spec_current_temp_tracks_average (subs : SubValues) (g : GroupState)
    (h : ∃ pr ∈ subs, pr.2.current_temperature ≠ none) :
    ∃ c, (update_aggregate_state subs g).1.current_temperature = some c
      ∧ |c - (currentTempsOf subs).sum / ((currentTempsOf subs).length : ℚ)|
          < TEMPERATURE_HYSTERESIS := by
  have hne : currentTempsOf subs ≠ [] := by
    obtain ⟨pr, hpr, hct⟩ := h
    obtain ⟨q, hq⟩ := Option.ne_none_iff_exists'.mp hct
    intro hnil
    have hmem : q ∈ currentTempsOf subs :=
      List.mem_filterMap.mpr ⟨pr, hpr, hq⟩
    rw [hnil] at hmem
    exact absurd hmem (List.not_mem_nil q)
  have havg : calculate_average_temperature (currentTempsOf subs)
      = some ((currentTempsOf subs).sum / ((currentTempsOf subs).length : ℚ)) := by
    simp [calculate_average_temperature, hne]
  rw [update_aggregate_state_current, havg]
  set m := (currentTempsOf subs).sum / ((currentTempsOf subs).length : ℚ) with hm
  have hpos : (0 : ℚ) < TEMPERATURE_HYSTERESIS := by norm_num [TEMPERATURE_HYSTERESIS]
  cases hg : g.current_temperature with
  | none =>
    exact ⟨m, rfl, by simpa using hpos⟩
  | some p =>
    by_cases hyst : TEMPERATURE_HYSTERESIS ≤ |m - p|
    · exact ⟨m, by simp [tempStep, if_pos hyst], by simpa using hpos⟩
    · refine ⟨p, by simp [tempStep, if_neg hyst], ?_⟩
      rw [abs_sub_comm]
      exact lt_of_not_le hyst

/-- Witness for claim C10 at one child reporting 21 degrees. -/
theorem spec_current_temp_tracks_average_witness :
    (∃ pr ∈ ([("child_a", heatSnap)] : SubValues),
      pr.2.current_temperature ≠ none)
    ∧ ∃ c, (update_aggregate_state [("child_a", heatSnap)]
          initGroupState).1.current_temperature = some c
        ∧ |c - (currentTempsOf [("child_a", heatSnap)]).sum
              / ((currentTempsOf [("child_a", heatSnap)]).length : ℚ)|
            < TEMPERATURE_HYSTERESIS :=
  ⟨by decide,
   spec_current_temp_tracks_average [("child_a", heatSnap)] initGroupState
     (by decide)⟩

/-! ### Claim C4 -/

/-- Claim C4: only child values inside the allowed hvac-mode set ["off",
"heat"] and allowed preset set ["boost", "none"] enter the respective
most-common-value votes: every voted value is allowed, the composite mode
and preset are the most-common-value of exactly those restricted
collections, and a child whose stored state or preset lies outside its
allowed set contributes nothing to the vote. -/
theorem spec_vote_restricted_to_allowed_sets (subs : SubValues)
    (g : GroupState) :
    (∀ m ∈ hvacVotesOf subs, m ∈ HVAC_MODES)
    ∧ (∀ m ∈ presetVotesOf subs, m ∈ PRESET_MODES)
    ∧ (update_aggregate_state subs g).1.hvac_mode
        = get_most_common_value (hvacVotesOf subs)
    ∧ (update_aggregate_state subs g).1.preset_mode
        = get_most_common_value (presetVotesOf subs)
    ∧ (∀ (pre : SubValues) (x : String × ChildSnapshot) (post : SubValues),
        (∀ s, x.2.state = some s → s ∉ HVAC_MODES) →
        hvacVotesOf (pre ++ x :: post) = hvacVotesOf (pre ++ post))
    ∧ (∀ (pre : SubValues) (x : String × ChildSnapshot) (post : SubValues),
        (∀ s, x.2.preset_mode = some s → s ∉ PRESET_MODES) →
        presetVotesOf (pre ++ x :: post) = presetVotesOf (pre ++ post)) := by
  refine ⟨?_, ?_, update_aggregate_state_hvac_mode subs g,
    update_aggregate_state_preset_mode subs g, ?_, ?_⟩
  · intro m hm
    simp only [hvacVotesOf, List.mem_filterMap, Option.bind_eq_some] at hm
    obtain ⟨pr, _hpr, s, _hs, hif⟩ := hm
    by_cases hmem : s ∈ HVAC_MODES
    · rw [if_pos hmem] at hif
      exact (Option.some.inj hif) ▸ hmem
    · rw [if_neg hmem] at hif
      exact absurd hif (by simp)
  · intro m hm
    simp only [presetVotesOf, List.mem_filterMap, Option.bind_eq_some] at hm
    obtain ⟨pr, _hpr, s, _hs, hif⟩ := hm
    by_cases hmem : s ∈ PRESET_MODES
    · rw [if_pos hmem] at hif
      exact (Option.some.inj hif) ▸ hmem
    · rw [if_neg hmem] at hif
      exact absurd hif (by simp)
  · intro pre x post hx
    have hfx : x.2.state.bind
        (fun s => if s ∈ HVAC_MODES then some s else none) = none := by
      cases hst : x.2.state with
      | none => rfl
      | some s => simp [hx s hst]
    simp [hvacVotesOf, List.filterMap_append, List.filterMap_cons, hfx]
  · intro pre x post hx
    have hfx : x.2.preset_mode.bind
        (fun s => if s ∈ PRESET_MODES then some s else none) = none := by
      cases hst : x.2.preset_mode with
      | none => rfl
      | some s => simp [hx s hst]
    simp [presetVotesOf, List.filterMap_append, List.filterMap_cons, hfx]

/-- Witness for claim C4: a child stored with state "cool" (outside the
allowed set) is excluded from the hvac-mode vote. -/
theorem spec_vote_restricted_to_allowed_sets_witness :
    (∀ s, coolSnap.state = some s → s ∉ HVAC_MODES)
    ∧ hvacVotesOf [("child_b", coolSnap), ("child_a", heatSnap)]
        = hvacVotesOf [("child_a", heatSnap)] := by
  have hx : ∀ s, coolSnap.state = some s → s ∉ HVAC_MODES := by
    intro s hs
    have hs' : s = "cool" := (Option.some.inj hs).symm
    rw [hs']
    decide
  exact ⟨hx,
    (spec_vote_restricted_to_allowed_sets [("child_a", heatSnap)]
        initGroupState).2.2.2.2.1
      [] ("child_b", coolSnap) [("child_a", heatSnap)] hx⟩

end GroupedThermostat

namespace GroupedThermostat

theorem pickMax_mono {α : Type} (cnt : α → Nat) :
    ∀ (vs : List α) (b : α), cnt b ≤ cnt (pickMax cnt vs b) := by
  intro vs
  induction vs with
  | nil => intro b; exact le_refl _
  | cons v vs ih =>
    intro b
    by_cases h : cnt b < cnt v
    · have hstep : pickMax cnt (v :: vs) b = pickMax cnt vs v := by
        simp [pickMax, h]
      rw [hstep]
      exact le_trans (le_of_lt h) (ih v)
    · have hstep : pickMax cnt (v :: vs) b = pickMax cnt vs b := by
        simp [pickMax, h]
      rw [hstep]
      exact ih b

theorem pickMax_filter {α : Type} [DecidableEq α] (cnt : α → Nat) (v : α) :
    ∀ (ws : List α) (b : α), cnt v ≤ cnt b →
      pickMax cnt (ws.filter (fun x => x ≠ v)) b = pickMax cnt ws b := by
  intro ws
  induction ws with
  | nil => intro b _; rfl
  | cons x xs ih =>
    intro b hvb
    by_cases hxv : x = v
    · subst hxv
      have hdrop : (x :: xs).filter (fun y => y ≠ x)
          = xs.filter (fun y => y ≠ x) := by simp
      have hnb : ¬ cnt b < cnt x := not_lt.mpr hvb
      rw [hdrop, ih b hvb]
      simp [pickMax, hnb]
    · have hkeep : (x :: xs).filter (fun y => y ≠ v)
          = x :: xs.filter (fun y => y ≠ v) := by simp [hxv]
      rw [hkeep]
      show pickMax cnt (xs.filter (fun y => y ≠ v))
          (if cnt b < cnt x then x else b) = pickMax cnt (x :: xs) b
      have hnext : cnt v ≤ cnt (if cnt b < cnt x then x else b) := by
        by_cases hbx : cnt b < cnt x
        · simp only [if_pos hbx]
          exact le_trans hvb (le_of_lt hbx)
        · simp only [if_neg hbx]
          exact hvb
      rw [ih _ hnext]
      rfl

theorem pickMax_firstKeys {α : Type} [DecidableEq α] (cnt : α → Nat) :
    ∀ (vs : List α) (b : α),
      pickMax cnt (firstKeys vs) b = pickMax cnt vs b := by
  intro vs
  induction vs with
  | nil => intro b; rfl
  | cons x xs ih =>
    intro b
    show pickMax cnt ((firstKeys xs).filter (fun y => y ≠ x))
        (if cnt b < cnt x then x else b) = pickMax cnt (x :: xs) b
    have hnext : cnt x ≤ cnt (if cnt b < cnt x then x else b) := by
      by_cases hbx : cnt b < cnt x
      · simp only [if_pos hbx]
        exact le_refl _
      · simp only [if_neg hbx]
        exact not_lt.mp hbx
    rw [pickMax_filter cnt x _ _ hnext, ih]
    rfl

theorem get_most_common_value_cons {α : Type} [DecidableEq α]
    (v : α) (vs : List α) :
    get_most_common_value (v :: vs)
      = some (pickMax (fun x => (v :: vs).count x) vs v) := by
  show some (pickMax (fun x => (v :: vs).count x)
      ((firstKeys vs).filter (fun y => y ≠ v)) v) = _
  rw [pickMax_filter _ v _ _ (le_refl _), pickMax_firstKeys]

theorem pickMax_first_max {α : Type} (cnt : α → Nat) :
    ∀ (vs : List α) (b : α),
      ∃ p s, b :: vs = p ++ pickMax cnt vs b :: s
        ∧ (∀ x ∈ p, cnt x < cnt (pickMax cnt vs b))
        ∧ (∀ x ∈ s, cnt x ≤ cnt (pickMax cnt vs b)) := by
  intro vs
  induction vs with
  | nil =>
    intro b
    exact ⟨[], [], rfl, by simp, by simp⟩
  | cons v ws ih =>
    intro b
    by_cases hbv : cnt b < cnt v
    · have hred : pickMax cnt (v :: ws) b = pickMax cnt ws v := by
        simp [pickMax, hbv]
      rw [hred]
      obtain ⟨p', s', hdec, hp, hs⟩ := ih v
      refine ⟨b :: p', s', ?_, ?_, hs⟩
      · rw [List.cons_append, ← hdec]
      · intro x hx
        rcases List.mem_cons.mp hx with hxb | hxp
        · rw [hxb]
          exact lt_of_lt_of_le hbv (pickMax_mono cnt ws v)
        · exact hp x hxp
    · have hred : pickMax cnt (v :: ws) b = pickMax cnt ws b := by
        simp [pickMax, hbv]
      rw [hred]
      obtain ⟨p', s', hdec, hp, hs⟩ := ih b
      cases p' with
      | nil =>
        simp only [List.nil_append] at hdec
        have hb : b = pickMax cnt ws b := (List.cons.injEq _ _ _ _ ▸ hdec).1
        have hws : ws = s' := (List.cons.injEq _ _ _ _ ▸ hdec).2
        refine ⟨[], v :: ws, ?_, by simp, ?_⟩
        · simp [← hb]
        · intro x hx
          rcases List.mem_cons.mp hx with hxv | hxw
          · rw [hxv, ← hb]
            exact not_lt.mp hbv
          · rw [hws] at hxw
            exact hs x hxw
      | cons y p'' =>
        simp only [List.cons_append] at hdec
        have hby : b = y := (List.cons.injEq _ _ _ _ ▸ hdec).1
        have hws : ws = p'' ++ pickMax cnt ws b :: s' :=
          (List.cons.injEq _ _ _ _ ▸ hdec).2
        have hblt : cnt b < cnt (pickMax cnt ws b) := by
          have hy := hp y (List.mem_cons_self y p'')
          rw [← hby] at hy
          exact hy
        refine ⟨b :: v :: p'', s', ?_, ?_, hs⟩
        · simp only [List.cons_append]
          rw [← hws]
        · intro x hx
          rcases List.mem_cons.mp hx with hxb | hx'
          · rw [hxb]
            exact hblt
          · rcases List.mem_cons.mp hx' with hxv | hxp
            · rw [hxv]
              exact lt_of_le_of_lt (not_lt.mp hbv) hblt
            · exact hp x (List.mem_cons_of_mem y hxp)

theorem foldl_max_spec : ∀ (ts : List ℚ) (t : ℚ),
    (ts.foldl max t = t ∨ ts.foldl max t ∈ ts)
    ∧ t ≤ ts.foldl max t
    ∧ ∀ x ∈ ts, x ≤ ts.foldl max t := by
  intro ts
  induction ts with
  | nil =>
    intro t
    exact ⟨Or.inl rfl, le_refl t, by simp⟩
  | cons a ts ih =>
    intro t
    have h := ih (max t a)
    have hfold : (a :: ts).foldl max t = ts.foldl max (max t a) := rfl
    refine ⟨?_, ?_, ?_⟩
    · rcases h.1 with heq | hmem
      · rcases max_choice t a with hta | hta
        · exact Or.inl (by rw [hfold, heq, hta])
        · refine Or.inr ?_
          rw [hfold, heq, hta]
          exact List.mem_cons_self a ts
      · exact Or.inr (List.mem_cons_of_mem a (hfold ▸ hmem))
    · rw [hfold]
      exact le_trans (le_max_left t a) h.2.1
    · intro x hx
      rw [hfold]
      rcases List.mem_cons.mp hx with hxa | hxts
      · rw [hxa]
        exact le_trans (le_max_right t a) h.2.1
      · exact h.2.2 x hxts

end GroupedThermostat

namespace GroupedThermostat

/-- Claim C8. -/
theorem spec_aggregation_functions_total :
    (calculate_average_temperature [] = none)
    ∧ (get_max_temperature [] = none)
    ∧ (∀ (α : Type) [DecidableEq α], get_most_common_value ([] : List α) = none)
    ∧ (∀ l : List ℚ, l ≠ [] → ∃ a, calculate_average_temperature l = some a
        ∧ (l.length : ℚ) * a = l.sum)
    ∧ (∀ l : List ℚ, l ≠ [] → ∃ m, get_max_temperature l = some m)
    ∧ (∀ (l : List ℚ) (m : ℚ), get_max_temperature l = some m →
        m ∈ l ∧ ∀ x ∈ l, x ≤ m)
    ∧ (∀ (α : Type) [DecidableEq α] (l : List α), l ≠ [] →
        ∃ m, get_most_common_value l = some m)
    ∧ (∀ (α : Type) [DecidableEq α] (l : List α) (m : α),
        get_most_common_value l = some m →
        (∀ x ∈ l, l.count x ≤ l.count m)
        ∧ ∃ p s, l = p ++ m :: s ∧ (∀ x ∈ p, l.count x < l.count m)
            ∧ (∀ x ∈ s, l.count x ≤ l.count m)) := by
  refine ⟨rfl, rfl, ?_, ?_, ?_, ?_, ?_, ?_⟩
  · intro α _
    rfl
  · intro l hl
    refine ⟨l.sum / (l.length : ℚ), by simp [calculate_average_temperature, hl], ?_⟩
    have hlen : (l.length : ℚ) ≠ 0 :=
      Nat.cast_ne_zero.mpr (fun h0 => hl (List.length_eq_zero.mp h0))
    rw [mul_comm, div_mul_cancel₀ _ hlen]
  · intro l hl
    cases l with
    | nil => exact absurd rfl hl
    | cons t ts => exact ⟨ts.foldl max t, rfl⟩
  · intro l m hm
    cases l with
    | nil => exact absurd hm (by simp [get_max_temperature])
    | cons t ts =>
      have hm' : ts.foldl max t = m := Option.some.inj hm
      obtain ⟨hmem, hle, hall⟩ := foldl_max_spec ts t
      subst hm'
      constructor
      · rcases hmem with h | h
        · rw [h]
          exact List.mem_cons_self t ts
        · exact List.mem_cons_of_mem t h
      · intro x hx
        rcases List.mem_cons.mp hx with hxt | hxts
        · rw [hxt]
          exact hle
        · exact hall x hxts
  · intro α _ l hl
    cases l with
    | nil => exact absurd rfl hl
    | cons v vs => exact ⟨_, get_most_common_value_cons v vs⟩
  · intro α _ l m hm
    cases l with
    | nil => exact absurd hm (by simp [get_most_common_value, firstKeys])
    | cons v vs =>
      rw [get_most_common_value_cons] at hm
      have hm' : pickMax (fun x => (v :: vs).count x) vs v = m :=
        Option.some.inj hm
      obtain ⟨p, s, hdec, hp, hs⟩ :=
        pickMax_first_max (fun x => (v :: vs).count x) vs v
      rw [hm'] at hdec hp hs
      refine ⟨?_, p, s, hdec, hp, hs⟩
      intro x hx
      rw [hdec] at hx
      rcases List.mem_append.mp hx with hxp | hxms
      · exact le_of_lt (hp x hxp)
      · rcases List.mem_cons.mp hxms with hxm | hxs
        · rw [hxm]
        · exact hs x hxs

/-- Witness for claim C8. -/
theorem spec_aggregation_functions_total_witness :
    (([20, 22] : List ℚ) ≠ []
      ∧ ∃ a, calculate_average_temperature [20, 22] = some a
          ∧ ((([20, 22] : List ℚ).length : ℚ) * a = ([20, 22] : List ℚ).sum))
    ∧ (get_most_common_value ["heat", "off", "off"] = some "off"
      ∧ ((∀ x ∈ (["heat", "off", "off"] : List String),
            (["heat", "off", "off"] : List String).count x
              ≤ (["heat", "off", "off"] : List String).count "off")
        ∧ ∃ p s, (["heat", "off", "off"] : List String) = p ++ "off" :: s
            ∧ (∀ x ∈ p, (["heat", "off", "off"] : List String).count x
                < (["heat", "off", "off"] : List String).count "off")
            ∧ (∀ x ∈ s, (["heat", "off", "off"] : List String).count x
                ≤ (["heat", "off", "off"] : List String).count "off"))) := by
  have h1 : ([20, 22] : List ℚ) ≠ [] := by simp
  have h2 : get_most_common_value ["heat", "off", "off"] = some "off" := by
    decide
  exact ⟨⟨h1, spec_aggregation_functions_total.2.2.2.1 [20, 22] h1⟩,
    ⟨h2, spec_aggregation_functions_total.2.2.2.2.2.2.2 String
      ["heat", "off", "off"] "off" h2⟩⟩

end GroupedThermostat
